import Mathlib

/-! Verification of the sentinel guard agent (src/sentinel.py): a shallow
embedding of the presence-classification and escalation state machine, with
theorems settling the specified properties.  Timestamps are modelled as
integers (seconds); the Python wall clock is injected as an explicit `now`
argument per tick.  The Python `None`-subtraction failure mode is modelled by
returning `Option`. -/

namespace Sentinel

/-- One face found in a frame.  `matchedIdentity` is the trusted name the
classifier matched it to (`compare_faces` found a `True`), or `none` for an
unrecognized face. -/
structure FaceObservation where
  matchedIdentity : Option String
deriving DecidableEq

/-- The decision a tick reports, per the presence-tracker contract. -/
inductive PresenceDecision
  | TrustedPresent
  | UnknownPending
  | IntruderConfirmed
  | NoFaces
deriving DecidableEq

/-- An output of one escalation tick: a spoken warning, possibly together
with a snapshot written to the given path. -/
inductive EscalationAction
  | speak (msg : String)
  | speakSnapshot (msg : String) (path : String)
deriving DecidableEq

/-- The agent state variables set up in `SentinelAgent.__init__` (lines 25-29
of src/sentinel.py). -/
structure AgentState where
  intruder_detected : Bool
  last_warning_time : Option Int
  escalation_level : Nat
  unrecognized_face_start_time : Option Int
deriving DecidableEq

/-- Initial values of the intruder-detection state variables
(`__init__`). -/
def initial_state : AgentState :=
  { intruder_detected := false
    last_warning_time := none
    escalation_level := 0
    unrecognized_face_start_time := none }

/-- Grace period before flagging an unknown person as an intruder
(`self.GRACE_PERIOD_SECONDS = 3`). -/
def GRACE_PERIOD_SECONDS : Int := 3

/-- Level-0 warning message. -/
def warning_level_0 : String :=
  "Hello? Can I help you? My owner isn\x27t here right now."

/-- Level-1 warning message. -/
def warning_level_1 : String :=
  "You don\x27t seem to be on the trusted list. This area is being monitored."

/-- Level-2 warning message (fires together with the snapshot). -/
def warning_level_2 : String :=
  "You are not authorized to be here. Your presence is being recorded. Please leave immediately."

/-- Level-3 warning message. -/
def warning_level_3 : String :=
  "Warning! Intrusion detected. If you do not vacate the premises, I will have to take further action."

/-- Snapshot file path, `f"intruder_\x7bint(current_time)\x7d.jpg"`. -/
def snapshot_path (current_time : Int) : String :=
  "intruder_" ++ toString current_time ++ ".jpg"

/-- `SentinelAgent.reset_intruder_state` (lines 93-100): clears all
intruder-related flags. -/
def reset_intruder_state (s : AgentState) : AgentState :=
  { s with intruder_detected := false
           unrecognized_face_start_time := none
           escalation_level := 0
           last_warning_time := none }

/-- `SentinelAgent.handle_intruder_escalation` (lines 62-91).  Returns the
updated state and at most one emitted action.  When `escalation_level` is
nonzero and `last_warning_time` is `None`, the Python expression
`current_time - self.last_warning_time` raises `TypeError`; that failure is
modelled as `none`. -/
def handle_intruder_escalation (current_time : Int) (s : AgentState) :
    Option (AgentState × Option EscalationAction) :=
  if s.escalation_level = 0 then
    some ({ s with escalation_level := 1, last_warning_time := some current_time },
      some (EscalationAction.speak warning_level_0))
  else
    match s.last_warning_time with
    | none => none
    | some last =>
      let time_since_last_warning := current_time - last
      if s.escalation_level = 1 ∧ time_since_last_warning > 10 then
        some ({ s with escalation_level := 2, last_warning_time := some current_time },
          some (EscalationAction.speak warning_level_1))
      else if s.escalation_level = 2 ∧ time_since_last_warning > 10 then
        some ({ s with escalation_level := 3, last_warning_time := some current_time },
          some (EscalationAction.speakSnapshot warning_level_2 (snapshot_path current_time)))
      else if s.escalation_level = 3 ∧ time_since_last_warning > 5 then
        some ({ s with escalation_level := 4, last_warning_time := some current_time },
          some (EscalationAction.speak warning_level_3))
      else
        some (s, none)

/-- `is_trusted_person_present` as computed by the loop over
`face_encodings` (lines 124-133): true when any observation matched a
known face. -/
def is_trusted_person_present (observations : List FaceObservation) : Bool :=
  observations.any (fun o => o.matchedIdentity.isSome)

/-- Result of one iteration of the monitoring loop: the updated state, the
presence decision the tick corresponds to, and the escalation action it
emitted (if any). -/
structure TickResult where
  state : AgentState
  decision : PresenceDecision
  action : Option EscalationAction
deriving DecidableEq

/-- One iteration of the monitoring loop of `start_guard_mode`
(lines 124-148): classifier results are abstracted into the per-frame
observation list, and the wall clock into `now`.  A matched face triggers
`reset_intruder_state` inside the face loop; then the intrusion-detection
logic runs on the (possibly reset) state. -/
def guard_tick (s : AgentState) (observations : List FaceObservation) (now : Int) :
    Option TickResult :=
  let trusted := is_trusted_person_present observations
  let s1 := if trusted then reset_intruder_state s else s
  if trusted = false ∧ observations ≠ [] then
    match s1.unrecognized_face_start_time with
    | none =>
        some ⟨{ s1 with unrecognized_face_start_time := some now },
          PresenceDecision.UnknownPending, none⟩
    | some start =>
        if now - start > GRACE_PERIOD_SECONDS then
          match handle_intruder_escalation now { s1 with intruder_detected := true } with
          | none => none
          | some (s2, act) => some ⟨s2, PresenceDecision.IntruderConfirmed, act⟩
        else
          some ⟨s1, PresenceDecision.UnknownPending, none⟩
  else
    let s2 := { s1 with unrecognized_face_start_time := none }
    let s3 := if trusted then reset_intruder_state s2 else s2
    some ⟨s3,
      if trusted then PresenceDecision.TrustedPresent else PresenceDecision.NoFaces,
      none⟩

/-- One frame of a monitoring session: the classifier output for the frame
and the wall-clock time of the tick. -/
structure Tick where
  observations : List FaceObservation
  now : Int
deriving DecidableEq

/-- Runs a sequence of monitoring-loop iterations from a state, threading the
state; `none` if any tick fails. -/
def run_ticks (s : AgentState) : List Tick → Option AgentState
  | [] => some s
  | t :: rest =>
    match guard_tick s t.observations t.now with
    | none => none
    | some r => run_ticks r.state rest

/-- One guard cycle (`start_guard_mode`, lines 102-159): the loop processes
frames until it exits (frame-read failure or the quit key); the teardown
(camera release, window destruction, final announcement) does not touch any
of the four detection state variables, so the post-cycle state is exactly
the state after the processed frames. -/
def guard_cycle (s : AgentState) (frames : List Tick) : Option AgentState :=
  run_ticks s frames

/-- Runs a sequence of escalation ticks (`handle_intruder_escalation` called
once per loop iteration while the intruder persists), collecting the emitted
actions in order. -/
def esc_run (s : AgentState) : List Int → Option (AgentState × List EscalationAction)
  | [] => some (s, [])
  | t :: rest =>
    match handle_intruder_escalation t s with
    | none => none
    | some (s1, act) =>
      match esc_run s1 rest with
      | none => none
      | some (s2, acts) => some (s2, act.toList ++ acts)

/-- Whether an escalation action includes the snapshot side effect. -/
def is_snapshot_action : EscalationAction → Bool
  | EscalationAction.speakSnapshot _ _ => true
  | EscalationAction.speak _ => false

/-- An unrecognized face, as one observation. -/
def unknown_observation : FaceObservation := ⟨none⟩

/-- A face matched against the trusted registry. -/
def matched_observation : FaceObservation := ⟨some "owner"⟩

/-- Well-formedness of the state: whenever an escalation level has been
entered, a last-warning timestamp has been recorded.  This is what makes the
subtraction `current_time - self.last_warning_time` in
`handle_intruder_escalation` safe. -/
def level_warning_invariant (s : AgentState) : Prop :=
  s.escalation_level ≠ 0 → s.last_warning_time.isSome = true

/-- Core facts about one escalation tick: the presence fields are untouched,
a silent tick leaves the state unchanged, and a firing tick advances the
level by exactly one and stamps `last_warning_time` with the current time. -/
lemma handle_result (now : Int) (s s1 : AgentState) (act : Option EscalationAction)
    (h : handle_intruder_escalation now s = some (s1, act)) :
    s1.intruder_detected = s.intruder_detected ∧
    s1.unrecognized_face_start_time = s.unrecognized_face_start_time ∧
    (act = none → s1 = s) ∧
    (∀ a, act = some a →
      s1.escalation_level = s.escalation_level + 1 ∧
      s1.last_warning_time = some now) := by
  simp only [handle_intruder_escalation] at h
  split at h
  · simp only [Option.some.injEq, Prod.mk.injEq] at h
    obtain ⟨hs, ha⟩ := h
    subst hs; subst ha
    refine ⟨rfl, rfl, by simp, ?_⟩
    intro a ha
    simp_all
  · split at h
    · exact absurd h (by simp)
    · split_ifs at h <;>
        (simp only [Option.some.injEq, Prod.mk.injEq] at h;
         obtain ⟨hs, ha⟩ := h; subst hs; subst ha) <;>
        refine ⟨rfl, rfl, by simp, ?_⟩ <;> intro a ha <;> simp_all

/-- Complete characterization of one escalation tick that returned a
result: exactly one of the five rows of the ladder applies. -/
lemma handle_act_spec (now : Int) (s s1 : AgentState) (act : Option EscalationAction)
    (h : handle_intruder_escalation now s = some (s1, act)) :
    (act = none ∧ s1 = s ∧ s.escalation_level ≠ 0 ∧
      ∀ last, s.last_warning_time = some last →
        ¬(s.escalation_level = 1 ∧ now - last > 10) ∧
        ¬(s.escalation_level = 2 ∧ now - last > 10) ∧
        ¬(s.escalation_level = 3 ∧ now - last > 5)) ∨
    (s.escalation_level = 0 ∧
      act = some (EscalationAction.speak warning_level_0) ∧
      s1 = { s with escalation_level := 1, last_warning_time := some now }) ∨
    ((∃ last, s.last_warning_time = some last ∧ now - last > 10) ∧
      s.escalation_level = 1 ∧
      act = some (EscalationAction.speak warning_level_1) ∧
      s1 = { s with escalation_level := 2, last_warning_time := some now }) ∨
    ((∃ last, s.last_warning_time = some last ∧ now - last > 10) ∧
      s.escalation_level = 2 ∧
      act = some (EscalationAction.speakSnapshot warning_level_2 (snapshot_path now)) ∧
      s1 = { s with escalation_level := 3, last_warning_time := some now }) ∨
    ((∃ last, s.last_warning_time = some last ∧ now - last > 5) ∧
      s.escalation_level = 3 ∧
      act = some (EscalationAction.speak warning_level_3) ∧
      s1 = { s with escalation_level := 4, last_warning_time := some now }) := by
  simp only [handle_intruder_escalation] at h
  split at h
  · simp only [Option.some.injEq, Prod.mk.injEq] at h
    obtain ⟨hs, ha⟩ := h
    subst hs; subst ha
    right; left; simp_all
  · rename_i h0
    split at h
    · exact absurd h (by simp)
    · rename_i last hlw
      split_ifs at h with h1 h2 h3 <;>
        (simp only [Option.some.injEq, Prod.mk.injEq] at h;
         obtain ⟨hs, ha⟩ := h; subst hs; subst ha)
      · right; right; left; exact ⟨⟨last, hlw, h1.2⟩, h1.1, rfl, rfl⟩
      · right; right; right; left; exact ⟨⟨last, hlw, h2.2⟩, h2.1, rfl, rfl⟩
      · right; right; right; right; exact ⟨⟨last, hlw, h3.2⟩, h3.1, rfl, rfl⟩
      · left
        refine ⟨rfl, rfl, h0, ?_⟩
        intro l hl
        rw [hlw] at hl
        injection hl with hl
        subst hl
        exact ⟨h1, h2, h3⟩

/-- On a well-formed state the escalation tick never hits the `None`
subtraction. -/
lemma handle_total (now : Int) (s : AgentState)
    (hwf : level_warning_invariant s) :
    (handle_intruder_escalation now s).isSome = true := by
  simp only [handle_intruder_escalation]
  split
  · simp
  · rcases hlw : s.last_warning_time with _ | last
    · rename_i h0
      exact absurd (hwf h0) (by simp [hlw])
    · simp only [hlw]
      split_ifs <;> simp

/-- One escalation tick preserves well-formedness. -/
lemma handle_wf (now : Int) (s s1 : AgentState) (act : Option EscalationAction)
    (h : handle_intruder_escalation now s = some (s1, act))
    (hwf : level_warning_invariant s) :
    level_warning_invariant s1 := by
  obtain ⟨-, -, hnone, hfire⟩ := handle_result now s s1 act h
  cases act with
  | none => rw [hnone rfl]; exact hwf
  | some a =>
    obtain ⟨-, hlw⟩ := hfire a rfl
    intro _
    simp [hlw]

/-- A tick with a matched face resets everything, whatever the prior
state. -/
lemma guard_tick_trusted (s : AgentState) (observations : List FaceObservation) (now : Int)
    (h : is_trusted_person_present observations = true) :
    guard_tick s observations now =
      some ⟨initial_state, PresenceDecision.TrustedPresent, none⟩ := by
  simp [guard_tick, h, reset_intruder_state, initial_state]

/-- A tick with no faces clears the dwell timer and nothing else. -/
lemma guard_tick_empty (s : AgentState) (now : Int) :
    guard_tick s [] now =
      some ⟨{ s with unrecognized_face_start_time := none },
        PresenceDecision.NoFaces, none⟩ := by
  simp [guard_tick, is_trusted_person_present]

/-- First tick of an unknown face: the dwell timer starts. -/
lemma guard_tick_unknown_fresh (s : AgentState) (observations : List FaceObservation) (now : Int)
    (hobs : observations ≠ [])
    (ht : is_trusted_person_present observations = false)
    (hts : s.unrecognized_face_start_time = none) :
    guard_tick s observations now =
      some ⟨{ s with unrecognized_face_start_time := some now },
        PresenceDecision.UnknownPending, none⟩ := by
  simp [guard_tick, ht, hobs, hts]

/-- Unknown face still inside the grace period: nothing changes. -/
lemma guard_tick_unknown_within (s : AgentState) (observations : List FaceObservation)
    (now start : Int)
    (hobs : observations ≠ [])
    (ht : is_trusted_person_present observations = false)
    (hts : s.unrecognized_face_start_time = some start)
    (hg : ¬(now - start > GRACE_PERIOD_SECONDS)) :
    guard_tick s observations now = some ⟨s, PresenceDecision.UnknownPending, none⟩ := by
  simp [guard_tick, ht, hobs, hts, hg]

/-- Unknown face beyond the grace period: the intruder flag is raised and the
escalation engine runs. -/
lemma guard_tick_unknown_past (s : AgentState) (observations : List FaceObservation)
    (now start : Int)
    (hobs : observations ≠ [])
    (ht : is_trusted_person_present observations = false)
    (hts : s.unrecognized_face_start_time = some start)
    (hg : now - start > GRACE_PERIOD_SECONDS) :
    guard_tick s observations now =
      (handle_intruder_escalation now { s with intruder_detected := true }).map
        (fun p => ⟨p.1, PresenceDecision.IntruderConfirmed, p.2⟩) := by
  rcases hh : handle_intruder_escalation now { s with intruder_detected := true } with _ | p <;>
    rw [hts] at hh <;>
    simp [guard_tick, ht, hobs, hts, hg, hh]

/-- A tick with no trusted face never lowers the escalation level, never
clears an active intruder flag, and never clears `last_warning_time` while a
level is active. -/
lemma guard_tick_untrusted_persists (s : AgentState) (observations : List FaceObservation)
    (now : Int) (r : TickResult)
    (h : guard_tick s observations now = some r)
    (ht : is_trusted_person_present observations = false) :
    s.escalation_level ≤ r.state.escalation_level ∧
    (s.intruder_detected = true → r.state.intruder_detected = true) := by
  by_cases hobs : observations = []
  · subst hobs
    rw [guard_tick_empty s now] at h
    injection h with h
    subst h
    exact ⟨le_refl _, fun hi => hi⟩
  · rcases hts : s.unrecognized_face_start_time with _ | start
    · rw [guard_tick_unknown_fresh s observations now hobs ht hts] at h
      injection h with h
      subst h
      exact ⟨le_refl _, fun hi => hi⟩
    · by_cases hg : now - start > GRACE_PERIOD_SECONDS
      · rw [guard_tick_unknown_past s observations now start hobs ht hts hg] at h
        rcases hh : handle_intruder_escalation now { s with intruder_detected := true }
          with _ | ⟨s2, act⟩
        · rw [hh] at h; exact absurd h (by simp)
        · rw [hh] at h
          simp only [Option.map_some', Option.some.injEq] at h
          subst h
          obtain ⟨hint, -, hnone, hfire⟩ :=
            handle_result now { s with intruder_detected := true } s2 act hh
          constructor
          · cases act with
            | none => simp [hnone rfl]
            | some a => obtain ⟨hl, -⟩ := hfire a rfl; simp [hl]
          · intro _
            simpa using hint
      · rw [guard_tick_unknown_within s observations now start hobs ht hts hg] at h
        injection h with h
        subst h
        exact ⟨le_refl _, fun hi => hi⟩

/-- The initial state is well-formed. -/
lemma initial_wf : level_warning_invariant initial_state := fun h => absurd rfl h

/-- A tick from a well-formed state always succeeds and preserves
well-formedness. -/
lemma guard_tick_total_wf (s : AgentState) (observations : List FaceObservation) (now : Int)
    (hwf : level_warning_invariant s) :
    ∃ r, guard_tick s observations now = some r ∧ level_warning_invariant r.state := by
  by_cases ht : is_trusted_person_present observations = true
  · exact ⟨_, guard_tick_trusted s observations now ht, fun h => absurd rfl h⟩
  · replace ht : is_trusted_person_present observations = false := by simpa using ht
    by_cases hobs : observations = []
    · subst hobs
      exact ⟨_, guard_tick_empty s now, fun h => hwf h⟩
    · rcases hts : s.unrecognized_face_start_time with _ | start
      · exact ⟨_, guard_tick_unknown_fresh s observations now hobs ht hts, fun h => hwf h⟩
      · by_cases hg : now - start > GRACE_PERIOD_SECONDS
        · have hwf2 : level_warning_invariant { s with intruder_detected := true } :=
            fun h => hwf h
          have htot := handle_total now { s with intruder_detected := true } hwf2
          rcases hh : handle_intruder_escalation now { s with intruder_detected := true }
            with _ | ⟨s2, act⟩
          · rw [hh] at htot; exact absurd htot (by simp)
          · refine ⟨⟨s2, PresenceDecision.IntruderConfirmed, act⟩, ?_, ?_⟩
            · rw [guard_tick_unknown_past s observations now start hobs ht hts hg, hh]
              rfl
            · exact handle_wf now _ s2 act hh hwf2
        · exact ⟨_, guard_tick_unknown_within s observations now start hobs ht hts hg, hwf⟩

/-- Running any tick sequence from a well-formed state succeeds and ends
well-formed. -/
lemma run_ticks_wf (ts : List Tick) (s : AgentState)
    (hwf : level_warning_invariant s) :
    ∃ s1, run_ticks s ts = some s1 ∧ level_warning_invariant s1 := by
  induction ts generalizing s with
  | nil => exact ⟨s, rfl, hwf⟩
  | cons t rest ih =>
    obtain ⟨r, hr, hrwf⟩ := guard_tick_total_wf s t.observations t.now hwf
    obtain ⟨s1, hs1, hs1wf⟩ := ih r.state hrwf
    exact ⟨s1, by simp [run_ticks, hr, hs1], hs1wf⟩

/-- Running a concatenation of tick sequences threads the state through. -/
lemma run_ticks_append (l1 l2 : List Tick) (s : AgentState) :
    run_ticks s (l1 ++ l2) = (run_ticks s l1).bind (fun s1 => run_ticks s1 l2) := by
  induction l1 generalizing s with
  | nil => simp [run_ticks]
  | cons t rest ih =>
    simp only [List.cons_append, run_ticks]
    rcases guard_tick s t.observations t.now with _ | r
    · simp
    · simp [ih]

/-- The escalation level never decreases along one escalation tick. -/
lemma handle_level_le (now : Int) (s s1 : AgentState) (act : Option EscalationAction)
    (h : handle_intruder_escalation now s = some (s1, act)) :
    s.escalation_level ≤ s1.escalation_level := by
  obtain ⟨-, -, hnone, hfire⟩ := handle_result now s s1 act h
  cases act with
  | none => rw [hnone rfl]
  | some a => obtain ⟨hl, -⟩ := hfire a rfl; omega

/-- One escalation tick emits a snapshot action exactly when it crosses from
level at most 2 to level at least 3 (that is, fires the 2 to 3 row). -/
lemma handle_snap_count (now : Int) (s s1 : AgentState) (act : Option EscalationAction)
    (h : handle_intruder_escalation now s = some (s1, act)) :
    act.toList.countP is_snapshot_action =
      if s.escalation_level ≤ 2 ∧ 3 ≤ s1.escalation_level then 1 else 0 := by
  rcases handle_act_spec now s s1 act h with
    ⟨ha, hs, -, -⟩ | ⟨hl, ha, hs⟩ | ⟨-, hl, ha, hs⟩ | ⟨-, hl, ha, hs⟩ | ⟨-, hl, ha, hs⟩
  · subst ha; subst hs
    simp only [Option.toList_none, List.countP_nil]
    split_ifs with hc
    · omega
    · rfl
  · subst ha; subst hs
    simp [is_snapshot_action, hl]
  · subst ha; subst hs
    simp [is_snapshot_action, hl]
  · subst ha; subst hs
    simp [is_snapshot_action, hl]
  · subst ha; subst hs
    simp [is_snapshot_action, hl]

/-- The escalation level never decreases along an escalation run. -/
lemma esc_run_mono (ts : List Int) (s s2 : AgentState) (acts : List EscalationAction)
    (h : esc_run s ts = some (s2, acts)) :
    s.escalation_level ≤ s2.escalation_level := by
  induction ts generalizing s acts with
  | nil =>
    simp only [esc_run, Option.some.injEq, Prod.mk.injEq] at h
    rw [h.1]
  | cons t rest ih =>
    simp only [esc_run] at h
    split at h
    · exact absurd h (by simp)
    · rename_i s1 act hh
      split at h
      · exact absurd h (by simp)
      · rename_i s2x actsx hrest
        simp only [Option.some.injEq, Prod.mk.injEq] at h
        obtain ⟨h1, -⟩ := h
        subst h1
        exact le_trans (handle_level_le t s s1 act hh) (ih s1 actsx hrest)

/-- An escalation run emits exactly one snapshot when it crosses level 3 and
none otherwise. -/
lemma esc_run_snap_count (ts : List Int) (s s2 : AgentState) (acts : List EscalationAction)
    (h : esc_run s ts = some (s2, acts)) :
    acts.countP is_snapshot_action =
      if s.escalation_level ≤ 2 ∧ 3 ≤ s2.escalation_level then 1 else 0 := by
  induction ts generalizing s acts with
  | nil =>
    simp only [esc_run, Option.some.injEq, Prod.mk.injEq] at h
    obtain ⟨h1, h2⟩ := h
    subst h1
    rw [← h2]
    simp only [List.countP_nil]
    split_ifs with hc
    · omega
    · rfl
  | cons t rest ih =>
    simp only [esc_run] at h
    split at h
    · exact absurd h (by simp)
    · rename_i s1 act hh
      split at h
      · exact absurd h (by simp)
      · rename_i s2x actsx hrest
        simp only [Option.some.injEq, Prod.mk.injEq] at h
        obtain ⟨h1, h2⟩ := h
        subst h1
        rw [← h2]
        have hstep := handle_snap_count t s s1 act hh
        have hrest_eq := ih s1 actsx hrest
        have hmono := esc_run_mono rest s1 _ actsx hrest
        have hstepmono := handle_level_le t s s1 act hh
        rw [List.countP_append, hstep, hrest_eq]
        split_ifs <;> omega

/-- C1: for every tick in which at least one face observation is matched to
a known identity, the tick's decision is TrustedPresent, and regardless of
the prior state the update clears `unknownSince`
(`unrecognized_face_start_time`), forces `isIntruder` (`intruder_detected`)
to false, and destroys the escalation state (level back to 0,
`last_warning_time` cleared). -/
theorem trusted_tick_clears_everything (s : AgentState)
    (observations : List FaceObservation) (now : Int)
    (h : ∃ o ∈ observations, o.matchedIdentity.isSome = true) :
    guard_tick s observations now =
      some ⟨{ intruder_detected := false, last_warning_time := none,
              escalation_level := 0, unrecognized_face_start_time := none },
        PresenceDecision.TrustedPresent, none⟩ := by
  have ht : is_trusted_person_present observations = true := by
    rw [is_trusted_person_present, List.any_eq_true]
    obtain ⟨o, ho, hm⟩ := h
    exact ⟨o, ho, hm⟩
  exact guard_tick_trusted s observations now ht

/-- Witness for C1 at a fully escalated prior state. -/
theorem trusted_tick_clears_everything_witness :
    guard_tick ⟨true, some 5, 3, some 2⟩ [matched_observation] 20 =
      some ⟨⟨false, none, 0, none⟩, PresenceDecision.TrustedPresent, none⟩ :=
  trusted_tick_clears_everything ⟨true, some 5, 3, some 2⟩ [matched_observation] 20
    ⟨matched_observation, by simp [matched_observation]⟩

/-- C2 counterexample: with the dwell timer started at time 0, an
unknown-face tick at time 3, i.e. at exactly `GRACE_PERIOD_SECONDS`
elapsed, still reports UnknownPending with the intruder flag down, because
the code compares with strict `>`; the claim says confirmation happens at
exactly the grace period. -/
theorem grace_boundary_not_confirmed :
    guard_tick ⟨false, none, 0, some 0⟩ [unknown_observation] 3 =
      some ⟨⟨false, none, 0, some 0⟩, PresenceDecision.UnknownPending, none⟩ ∧
    (3 : Int) - 0 ≥ GRACE_PERIOD_SECONDS ∧
    PresenceDecision.UnknownPending ≠ PresenceDecision.IntruderConfirmed := by
  decide

/-- C2 amended: for every tick with a non-empty observation set in which no
observation is matched, if `unknownSince` is already set and
`now - unknownSince` is strictly greater than GRACE_PERIOD_SECONDS, the
tracker sets `isIntruder = true` and reports IntruderConfirmed; at exactly
GRACE_PERIOD_SECONDS elapsed it still reports UnknownPending. -/
theorem unknown_strictly_past_grace_confirms (s : AgentState)
    (observations : List FaceObservation) (now start : Int)
    (hobs : observations ≠ [])
    (ht : is_trusted_person_present observations = false)
    (hts : s.unrecognized_face_start_time = some start)
    (hg : now - start > GRACE_PERIOD_SECONDS)
    (hwf : level_warning_invariant s) :
    ∃ r, guard_tick s observations now = some r ∧
      r.decision = PresenceDecision.IntruderConfirmed ∧
      r.state.intruder_detected = true := by
  have hwf2 : level_warning_invariant { s with intruder_detected := true } :=
    fun hx => hwf hx
  have htot := handle_total now { s with intruder_detected := true } hwf2
  rcases hh : handle_intruder_escalation now { s with intruder_detected := true }
    with _ | ⟨s2, act⟩
  · rw [hh] at htot; exact absurd htot (by simp)
  · refine ⟨⟨s2, PresenceDecision.IntruderConfirmed, act⟩, ?_, rfl, ?_⟩
    · rw [guard_tick_unknown_past s observations now start hobs ht hts hg, hh]
      rfl
    · have := (handle_result now { s with intruder_detected := true } s2 act hh).1
      simpa using this

/-- Witness for C2's amended theorem, one second past the boundary. -/
theorem unknown_strictly_past_grace_confirms_witness :
    ∃ r, guard_tick ⟨false, none, 0, some 0⟩ [unknown_observation] 4 = some r ∧
      r.decision = PresenceDecision.IntruderConfirmed ∧
      r.state.intruder_detected = true :=
  unknown_strictly_past_grace_confirms ⟨false, none, 0, some 0⟩ [unknown_observation] 4 0
    (by decide) (by decide) rfl (by decide) (fun hx => absurd rfl hx)

/-- C3 counterexample: an unknown face at times 0 and 4 confirms the
intruder, and an empty frame at time 5 then clears `unknownSince` while
`isIntruder` stays true, so the claimed reachable-state invariant fails. -/
theorem intruder_with_cleared_timer_reachable :
    run_ticks initial_state
        [⟨[unknown_observation], 0⟩, ⟨[unknown_observation], 4⟩, ⟨[], 5⟩] =
      some ⟨true, some 4, 1, none⟩ ∧
    (⟨true, some 4, 1, none⟩ : AgentState).intruder_detected = true ∧
    (⟨true, some 4, 1, none⟩ : AgentState).unrecognized_face_start_time = none := by
  decide

/-- C3 amended: at any tick where `isIntruder` transitions from false to
true, `unknownSince` is set and strictly more than GRACE_PERIOD_SECONDS has
elapsed since it; the flag is only ever raised on such a tick.  (The
claimed invariant over all reachable states fails: after confirmation an
empty frame clears `unknownSince` while `isIntruder` persists.) -/
theorem intruder_transition_requires_grace (s : AgentState)
    (observations : List FaceObservation) (now : Int) (r : TickResult)
    (h : guard_tick s observations now = some r)
    (hpre : s.intruder_detected = false)
    (hpost : r.state.intruder_detected = true) :
    ∃ start, s.unrecognized_face_start_time = some start ∧
      now - start > GRACE_PERIOD_SECONDS := by
  by_cases ht : is_trusted_person_present observations = true
  · rw [guard_tick_trusted s observations now ht] at h
    injection h with h
    subst h
    simp [initial_state] at hpost
  · replace ht : is_trusted_person_present observations = false := by simpa using ht
    by_cases hobs : observations = []
    · subst hobs
      rw [guard_tick_empty s now] at h
      injection h with h
      subst h
      simp [hpre] at hpost
    · rcases hts : s.unrecognized_face_start_time with _ | start
      · rw [guard_tick_unknown_fresh s observations now hobs ht hts] at h
        injection h with h
        subst h
        simp [hpre] at hpost
      · by_cases hg : now - start > GRACE_PERIOD_SECONDS
        · exact ⟨start, rfl, hg⟩
        · rw [guard_tick_unknown_within s observations now start hobs ht hts hg] at h
          injection h with h
          subst h
          simp [hpre] at hpost

/-- Witness for C3's amended theorem at the confirming tick. -/
theorem intruder_transition_requires_grace_witness :
    ∃ start, (some (0 : Int)) = some start ∧ (4 : Int) - start > GRACE_PERIOD_SECONDS :=
  intruder_transition_requires_grace ⟨false, none, 0, some 0⟩ [unknown_observation] 4
    ⟨⟨true, some 4, 1, some 0⟩, PresenceDecision.IntruderConfirmed,
      some (EscalationAction.speak warning_level_0)⟩
    (by decide) rfl rfl

/-- C4: a tick with no faces clears only the dwell timer — an active
intruder flag, the escalation level and `last_warning_time` are untouched —
and an active intrusion episode can only end on a tick that observes a
trusted face. -/
theorem no_faces_preserves_episode :
    (∀ (s : AgentState) (now : Int),
      guard_tick s [] now =
        some ⟨{ s with unrecognized_face_start_time := none },
          PresenceDecision.NoFaces, none⟩) ∧
    (∀ (s : AgentState) (observations : List FaceObservation) (now : Int) (r : TickResult),
      guard_tick s observations now = some r →
      s.intruder_detected = true →
      r.state.intruder_detected = false →
      is_trusted_person_present observations = true) := by
  refine ⟨fun s now => guard_tick_empty s now, ?_⟩
  intro s observations now r h hpre hpost
  by_cases ht : is_trusted_person_present observations = true
  · exact ht
  · replace ht : is_trusted_person_present observations = false := by simpa using ht
    obtain ⟨-, hint⟩ := guard_tick_untrusted_persists s observations now r h ht
    rw [hint hpre] at hpost
    exact absurd hpost (by simp)

/-- Witness for C4: an empty frame at level 3 keeps the whole episode, and a
trusted face is what ends one. -/
theorem no_faces_preserves_episode_witness :
    guard_tick ⟨true, some 2, 3, some 1⟩ [] 9 =
      some ⟨⟨true, some 2, 3, none⟩, PresenceDecision.NoFaces, none⟩ ∧
    is_trusted_person_present [matched_observation] = true :=
  ⟨no_faces_preserves_episode.1 ⟨true, some 2, 3, some 1⟩ 9,
   no_faces_preserves_episode.2 ⟨true, some 2, 3, some 1⟩ [matched_observation] 9
     ⟨⟨false, none, 0, none⟩, PresenceDecision.TrustedPresent, none⟩
     (by decide) rfl rfl⟩

/-- Helper for C10: once a level has been entered, an escalation tick never
emits the level-0 greeting again. -/
lemma handle_no_restart (now : Int) (s s1 : AgentState) (act : Option EscalationAction)
    (h : handle_intruder_escalation now s = some (s1, act))
    (hl : s.escalation_level ≠ 0) :
    act ≠ some (EscalationAction.speak warning_level_0) := by
  rcases handle_act_spec now s s1 act h with
    ⟨ha, -, -, -⟩ | ⟨hl0, -, -⟩ | ⟨-, -, ha, -⟩ | ⟨-, -, ha, -⟩ | ⟨-, -, ha, -⟩
  · simp [ha]
  · exact absurd hl0 hl
  · rw [ha]
    intro heq
    injection heq with heq
    injection heq with heq
    exact absurd heq (by decide)
  · rw [ha]
    intro heq
    injection heq with heq
    exact EscalationAction.noConfusion heq
  · rw [ha]
    intro heq
    injection heq with heq
    injection heq with heq
    exact absurd heq (by decide)

/-- C5: the ladder moves strictly in order.  Whenever an escalation tick
fires an action the level rises by exactly one (so no level is skipped and
no level's action can fire twice while the ladder stands still), a silent
tick changes nothing, the level never decreases, and from level 4 on every
tick is a no-op. -/
theorem escalation_ladder_strict (now : Int) (s s1 : AgentState)
    (act : Option EscalationAction)
    (h : handle_intruder_escalation now s = some (s1, act)) :
    (∀ a, act = some a → s1.escalation_level = s.escalation_level + 1) ∧
    (act = none → s1 = s) ∧
    s.escalation_level ≤ s1.escalation_level ∧
    (4 ≤ s.escalation_level → s1 = s ∧ act = none) := by
  obtain ⟨-, -, hnone, hfire⟩ := handle_result now s s1 act h
  refine ⟨fun a ha => (hfire a ha).1, hnone, handle_level_le now s s1 act h, ?_⟩
  intro h4
  rcases handle_act_spec now s s1 act h with
    ⟨ha, hs, -, -⟩ | ⟨hl, -, -⟩ | ⟨-, hl, -, -⟩ | ⟨-, hl, -, -⟩ | ⟨-, hl, -, -⟩
  · exact ⟨hs, ha⟩
  · omega
  · omega
  · omega
  · omega

/-- Witness for C5 at the first firing tick of an episode. -/
theorem escalation_ladder_strict_witness :
    (⟨true, some 0, 1, some (-4)⟩ : AgentState).escalation_level =
      (⟨true, none, 0, some (-4)⟩ : AgentState).escalation_level + 1 :=
  (escalation_ladder_strict 0 ⟨true, none, 0, some (-4)⟩ ⟨true, some 0, 1, some (-4)⟩
      (some (EscalationAction.speak warning_level_0)) (by decide)).1
    (EscalationAction.speak warning_level_0) rfl

/-- C6: each escalation tick produces at most one action (the single
optional action of the call); level 0 fires unconditionally with the
greeting; levels 1 and 2 fire exactly when more than 10 seconds have passed
since the last warning, level 3 exactly when more than 5 have, level 4 and
beyond never; and every firing stamps `last_warning_time` with the current
time. -/
theorem escalation_firing_conditions (now : Int) (s s1 : AgentState)
    (act : Option EscalationAction)
    (h : handle_intruder_escalation now s = some (s1, act)) :
    (∀ a, act = some a → s1.last_warning_time = some now) ∧
    (s.escalation_level = 0 → act = some (EscalationAction.speak warning_level_0)) ∧
    (∀ last, s.last_warning_time = some last →
      (s.escalation_level = 1 → (act.isSome = true ↔ now - last > 10)) ∧
      (s.escalation_level = 2 → (act.isSome = true ↔ now - last > 10)) ∧
      (s.escalation_level = 3 → (act.isSome = true ↔ now - last > 5)) ∧
      (4 ≤ s.escalation_level → act = none)) := by
  obtain ⟨-, -, -, hfire⟩ := handle_result now s s1 act h
  refine ⟨fun a ha => (hfire a ha).2, ?_, ?_⟩
  · intro h0
    rcases handle_act_spec now s s1 act h with
      ⟨-, -, hl, -⟩ | ⟨-, ha, -⟩ | ⟨-, hl, -, -⟩ | ⟨-, hl, -, -⟩ | ⟨-, hl, -, -⟩
    · exact absurd h0 hl
    · exact ha
    · omega
    · omega
    · omega
  · intro last hlast
    rcases handle_act_spec now s s1 act h with
      ⟨ha, -, -, hcond⟩ | ⟨hl, ha, -⟩ | ⟨⟨l2, hl2, hgt⟩, hl, ha, -⟩ |
      ⟨⟨l2, hl2, hgt⟩, hl, ha, -⟩ | ⟨⟨l2, hl2, hgt⟩, hl, ha, -⟩
    · obtain ⟨hn1, hn2, hn3⟩ := hcond last hlast
      subst ha
      refine ⟨?_, ?_, ?_, fun _ => rfl⟩ <;> intro hlv <;>
        simp only [Option.isSome_none] <;>
        constructor <;> intro hx
      · exact absurd hx (by simp)
      · exact absurd ⟨hlv, hx⟩ hn1
      · exact absurd hx (by simp)
      · exact absurd ⟨hlv, hx⟩ hn2
      · exact absurd hx (by simp)
      · exact absurd ⟨hlv, hx⟩ hn3
    · refine ⟨?_, ?_, ?_, ?_⟩ <;> intro hlv <;> omega
    · rw [hlast] at hl2
      injection hl2 with hl2
      subst hl2
      subst ha
      refine ⟨fun _ => ⟨fun _ => hgt, fun _ => rfl⟩, ?_, ?_, ?_⟩ <;> intro hlv <;> omega
    · rw [hlast] at hl2
      injection hl2 with hl2
      subst hl2
      subst ha
      refine ⟨?_, fun _ => ⟨fun _ => hgt, fun _ => rfl⟩, ?_, ?_⟩ <;> intro hlv <;> omega
    · rw [hlast] at hl2
      injection hl2 with hl2
      subst hl2
      subst ha
      refine ⟨?_, ?_, fun _ => ⟨fun _ => hgt, fun _ => rfl⟩, ?_⟩ <;> intro hlv <;> omega

/-- Witness for C6 at a level-1 tick whose cool-down has elapsed. -/
theorem escalation_firing_conditions_witness :
    (some (EscalationAction.speak warning_level_1)).isSome = true ↔ (20 : Int) - 5 > 10 :=
  ((escalation_firing_conditions 20 ⟨true, some 5, 1, none⟩ ⟨true, some 20, 2, none⟩
        (some (EscalationAction.speak warning_level_1)) (by decide)).2.2 5 rfl).1 rfl

/-- C7: a snapshot is emitted exactly on the level 2 to 3 transition, its
path embeds the firing timestamp as intruder_(unixSeconds).jpg, and over a
whole episode (an escalation run started at level 0) exactly one snapshot is
emitted when the run reaches level 3 and none before. -/
theorem snapshot_once_at_two_three :
    (∀ (now : Int) (s s1 : AgentState) (act : Option EscalationAction) (m p : String),
      handle_intruder_escalation now s = some (s1, act) →
      act = some (EscalationAction.speakSnapshot m p) →
      s.escalation_level = 2 ∧ s1.escalation_level = 3 ∧
        m = warning_level_2 ∧ p = "intruder_" ++ toString now ++ ".jpg") ∧
    (∀ (s : AgentState) (ts : List Int) (s2 : AgentState) (acts : List EscalationAction),
      s.escalation_level = 0 →
      esc_run s ts = some (s2, acts) →
      acts.countP is_snapshot_action =
        if 3 ≤ s2.escalation_level then 1 else 0) := by
  constructor
  · intro now s s1 act m p h ha
    rcases handle_act_spec now s s1 act h with
      ⟨h1, -, -, -⟩ | ⟨-, h1, -⟩ | ⟨-, -, h1, -⟩ | ⟨-, hl, h1, hs⟩ | ⟨-, -, h1, -⟩
    · rw [ha] at h1
      exact absurd h1 (by simp)
    · rw [ha] at h1
      simp at h1
    · rw [ha] at h1
      simp at h1
    · rw [ha] at h1
      injection h1 with h1
      injection h1 with hm hp
      subst hs
      exact ⟨hl, rfl, hm, hp⟩
    · rw [ha] at h1
      simp at h1
  · intro s ts s2 acts hl0 h
    rw [esc_run_snap_count ts s s2 acts h]
    simp [hl0]

/-- Witness for C7: the 2 to 3 firing at time 22 and a full episode run that
emits exactly its one snapshot. -/
theorem snapshot_once_at_two_three_witness :
    ((⟨true, some 11, 2, some (-4)⟩ : AgentState).escalation_level = 2 ∧
      (⟨true, some 22, 3, some (-4)⟩ : AgentState).escalation_level = 3 ∧
      warning_level_2 = warning_level_2 ∧
      "intruder_22.jpg" = "intruder_" ++ toString (22 : Int) ++ ".jpg") ∧
    ([EscalationAction.speak warning_level_0, EscalationAction.speak warning_level_1,
        EscalationAction.speakSnapshot warning_level_2 "intruder_22.jpg"].countP
        is_snapshot_action =
      if 3 ≤ (⟨true, some 22, 3, some (-4)⟩ : AgentState).escalation_level then 1 else 0) :=
  ⟨snapshot_once_at_two_three.1 22 ⟨true, some 11, 2, some (-4)⟩
      ⟨true, some 22, 3, some (-4)⟩
      (some (EscalationAction.speakSnapshot warning_level_2 "intruder_22.jpg"))
      warning_level_2 "intruder_22.jpg" (by decide) rfl,
   snapshot_once_at_two_three.2 ⟨true, none, 0, some (-4)⟩ [0, 11, 22]
      ⟨true, some 22, 3, some (-4)⟩
      [EscalationAction.speak warning_level_0, EscalationAction.speak warning_level_1,
        EscalationAction.speakSnapshot warning_level_2 "intruder_22.jpg"]
      rfl (by decide)⟩

/-- C8 counterexample: a guard cycle whose frames confirm an intruder ends
with the flag, level, warning time and dwell timer all non-initial — nothing
in the loop exit or teardown resets them, so the state is not discarded when
the cycle stops. -/
theorem cycle_end_keeps_state :
    guard_cycle initial_state
        [⟨[unknown_observation], 0⟩, ⟨[unknown_observation], 4⟩] =
      some ⟨true, some 4, 1, some 0⟩ ∧
    (⟨true, some 4, 1, some 0⟩ : AgentState) ≠ initial_state := by
  decide

/-- C8 amended: the detection state persists across guard cycles: when a
cycle stops, nothing is discarded, and a subsequently started guard cycle
continues exactly from the state the previous cycle ended in; fresh state
exists only at agent construction. -/
theorem cycle_state_carries_over (s s1 : AgentState) (f1 f2 : List Tick)
    (h : guard_cycle s f1 = some s1) :
    guard_cycle s (f1 ++ f2) = guard_cycle s1 f2 := by
  rw [guard_cycle] at h ⊢
  rw [run_ticks_append, h]
  rfl

/-- Witness for C8's amended theorem: the second cycle starts from the
intruder state left by the first. -/
theorem cycle_state_carries_over_witness :
    guard_cycle initial_state
        ([⟨[unknown_observation], 0⟩, ⟨[unknown_observation], 4⟩] ++ [⟨[], 5⟩]) =
      guard_cycle ⟨true, some 4, 1, some 0⟩ [⟨[], 5⟩] :=
  cycle_state_carries_over initial_state ⟨true, some 4, 1, some 0⟩
    [⟨[unknown_observation], 0⟩, ⟨[unknown_observation], 4⟩] [⟨[], 5⟩] (by decide)

/-- C9: in every state reachable from the initial state, a positive
escalation level implies `last_warning_time` is set, so the subtraction
`current_time - last_warning_time` in the escalation tick is always applied
to a set timestamp and no tick from a reachable state can fail. -/
theorem reachable_level_implies_warning_time (ts : List Tick) (s : AgentState) :
    (run_ticks initial_state ts).isSome = true ∧
    (run_ticks initial_state ts = some s →
      0 < s.escalation_level → s.last_warning_time.isSome = true) := by
  obtain ⟨s1, hs1, hwf⟩ := run_ticks_wf ts initial_state initial_wf
  refine ⟨by simp [hs1], ?_⟩
  intro h hl
  rw [hs1] at h
  injection h with h
  subst h
  exact hwf (by omega)

/-- Witness for C9 on a trace that confirms an intruder. -/
theorem reachable_level_implies_warning_time_witness :
    (⟨true, some 4, 1, some 0⟩ : AgentState).last_warning_time.isSome = true :=
  (reachable_level_implies_warning_time
      [⟨[unknown_observation], 0⟩, ⟨[unknown_observation], 4⟩]
      ⟨true, some 4, 1, some 0⟩).2 (by decide) (by decide)

/-- C10: during an active intrusion at level L, an empty frame clears only
the dwell timer; when an unknown face then reappears the timer restarts, a
fresh full grace period must elapse (strictly) before escalation resumes,
and when it resumes the ladder continues from the retained level L — the
action cannot be the level-0 greeting and the level never falls — while a
level-0 reset can only come from a tick observing a trusted face. -/
theorem interrupted_episode_resumes_at_level :
    (∀ (s : AgentState) (t0 t1 t2 : Int),
      s.intruder_detected = true →
      0 < s.escalation_level →
      s.last_warning_time.isSome = true →
      ∃ s1, guard_tick s [] t0 = some ⟨s1, PresenceDecision.NoFaces, none⟩ ∧
        s1.escalation_level = s.escalation_level ∧
        s1.intruder_detected = true ∧
        s1.unrecognized_face_start_time = none ∧
        ∃ s2, guard_tick s1 [unknown_observation] t1 =
            some ⟨s2, PresenceDecision.UnknownPending, none⟩ ∧
          s2.escalation_level = s.escalation_level ∧
          s2.intruder_detected = true ∧
          s2.unrecognized_face_start_time = some t1 ∧
          (¬(t2 - t1 > GRACE_PERIOD_SECONDS) →
            guard_tick s2 [unknown_observation] t2 =
              some ⟨s2, PresenceDecision.UnknownPending, none⟩) ∧
          (t2 - t1 > GRACE_PERIOD_SECONDS →
            ∃ s3 act, guard_tick s2 [unknown_observation] t2 =
                some ⟨s3, PresenceDecision.IntruderConfirmed, act⟩ ∧
              s.escalation_level ≤ s3.escalation_level ∧
              s3.intruder_detected = true ∧
              act ≠ some (EscalationAction.speak warning_level_0))) ∧
    (∀ (s : AgentState) (observations : List FaceObservation) (now : Int) (r : TickResult),
      guard_tick s observations now = some r →
      0 < s.escalation_level →
      r.state.escalation_level = 0 →
      is_trusted_person_present observations = true) := by
  constructor
  · intro s t0 t1 t2 hintr hlvl hlw
    have hu_ne : ([unknown_observation] : List FaceObservation) ≠ [] := by decide
    have hu_untrusted : is_trusted_person_present [unknown_observation] = false := by decide
    refine ⟨{ s with unrecognized_face_start_time := none },
      guard_tick_empty s t0, rfl, hintr, rfl, ?_⟩
    refine ⟨{ s with unrecognized_face_start_time := some t1 },
      guard_tick_unknown_fresh _ [unknown_observation] t1 hu_ne hu_untrusted rfl,
      rfl, hintr, rfl, ?_, ?_⟩
    · intro hg
      exact guard_tick_unknown_within _ [unknown_observation] t2 t1 hu_ne hu_untrusted rfl hg
    · intro hg
      have hwf2 : level_warning_invariant
          { s with unrecognized_face_start_time := some t1, intruder_detected := true } :=
        fun _ => hlw
      have htot := handle_total t2 _ hwf2
      rcases hh : handle_intruder_escalation t2
          { s with unrecognized_face_start_time := some t1, intruder_detected := true }
        with _ | ⟨s3, act⟩
      · rw [hh] at htot
        exact absurd htot (by simp)
      · refine ⟨s3, act, ?_, ?_, ?_, ?_⟩
        · rw [guard_tick_unknown_past _ [unknown_observation] t2 t1 hu_ne hu_untrusted rfl hg,
            hh]
          rfl
        · have := handle_level_le t2 _ s3 act hh
          simpa using this
        · have := (handle_result t2 _ s3 act hh).1
          simpa using this
        · refine handle_no_restart t2 _ s3 act hh ?_
          intro h0
          simp only [AgentState.escalation_level] at h0
          omega
  · intro s observations now r h hlvl hl0
    by_cases ht : is_trusted_person_present observations = true
    · exact ht
    · replace ht : is_trusted_person_present observations = false := by simpa using ht
      obtain ⟨hle, -⟩ := guard_tick_untrusted_persists s observations now r h ht
      omega

/-- Witness for C10 at level 1: empty frame at t=5, unknown face back at
t=6, escalation resumes at t=10 at level 2, and a trusted face is what
resets the level. -/
theorem interrupted_episode_resumes_at_level_witness :
    (∃ s1, guard_tick ⟨true, some 4, 1, none⟩ [] 5 =
        some ⟨s1, PresenceDecision.NoFaces, none⟩ ∧
      s1.escalation_level = 1 ∧
      s1.intruder_detected = true ∧
      s1.unrecognized_face_start_time = none ∧
      ∃ s2, guard_tick s1 [unknown_observation] 6 =
          some ⟨s2, PresenceDecision.UnknownPending, none⟩ ∧
        s2.escalation_level = 1 ∧
        s2.intruder_detected = true ∧
        s2.unrecognized_face_start_time = some 6 ∧
        (¬((10 : Int) - 6 > GRACE_PERIOD_SECONDS) →
          guard_tick s2 [unknown_observation] 10 =
            some ⟨s2, PresenceDecision.UnknownPending, none⟩) ∧
        ((10 : Int) - 6 > GRACE_PERIOD_SECONDS →
          ∃ s3 act, guard_tick s2 [unknown_observation] 10 =
              some ⟨s3, PresenceDecision.IntruderConfirmed, act⟩ ∧
            1 ≤ s3.escalation_level ∧
            s3.intruder_detected = true ∧
            act ≠ some (EscalationAction.speak warning_level_0))) ∧
    is_trusted_person_present [matched_observation] = true :=
  ⟨interrupted_episode_resumes_at_level.1 ⟨true, some 4, 1, none⟩ 5 6 10
      rfl (by decide) rfl,
   interrupted_episode_resumes_at_level.2 ⟨true, some 4, 1, none⟩ [matched_observation] 20
      ⟨⟨false, none, 0, none⟩, PresenceDecision.TrustedPresent, none⟩
      (by decide) (by decide) rfl⟩

end Sentinel
